import Mathlib

set_option maxRecDepth 4096

/-!
Verification of the AVR_millis timekeeping library (millis.c / millis.h).

The embedding models the 8-bit timer configuration registers of the AVR
(TCCR0A, TCCR0B, TIMSK0, TIFR0, OCR0A) as values of type Fin 256, the
32-bit System_millis counter as a Nat reduced modulo 2^32, and the
global-interrupt-enable flag (the I bit of SREG, owned by the caller)
as a Bool.  millis_Init is embedded statement by statement as a fold
over its list of register-write steps, in source order.
-/

/-- Modulus of the 32-bit unsigned counters (uint32_t arithmetic). -/
def millisModulus : Nat := 2 ^ 32

/-- Modelled from the spec: the bit-set register-access primitive supplied
by the external aKaReZa base library (reg |= (1 << bit), 8-bit register). -/
def bitSet (r : Fin 256) (b : Nat) : Fin 256 :=
  ⟨(r.val ||| (1 <<< b)) % 256, Nat.mod_lt _ (by norm_num)⟩

/-- Modelled from the spec: the bit-clear register-access primitive supplied
by the external aKaReZa base library (reg &= ~(1 << bit), 8-bit register). -/
def bitClear (r : Fin 256) (b : Nat) : Fin 256 :=
  ⟨(r.val &&& (255 ^^^ ((1 <<< b) % 256))) % 256, Nat.mod_lt _ (by norm_num)⟩

/-- Modelled from the spec: the interrupt-flag-clear primitive supplied by
the external aKaReZa base library; its observable effect on the flag
register is that the named pending-interrupt flag bit becomes 0. -/
def intFlag_clear (r : Fin 256) (b : Nat) : Fin 256 :=
  bitClear r b

/-- Bit position WGM00 in TCCR0A (AVR device header constant). -/
def WGM00 : Nat := 0
/-- Bit position WGM01 in TCCR0A (AVR device header constant). -/
def WGM01 : Nat := 1
/-- Bit position WGM02 in TCCR0B (AVR device header constant). -/
def WGM02 : Nat := 3
/-- Bit position CS00 in TCCR0B (AVR device header constant). -/
def CS00 : Nat := 0
/-- Bit position CS01 in TCCR0B (AVR device header constant). -/
def CS01 : Nat := 1
/-- Bit position CS02 in TCCR0B (AVR device header constant). -/
def CS02 : Nat := 2
/-- Bit position OCIE0A in TIMSK0 (AVR device header constant). -/
def OCIE0A : Nat := 0
/-- Bit position OCF0A in TIFR0 (AVR device header constant). -/
def OCF0A : Nat := 0

/-- The machine state visible to this library: the five Timer0 registers
written by millis_Init, the global-interrupt-enable bit (owned by the
caller, never written by this library), the System_millis counter
(volatile uint32_t, millis.c line 38), and an abstract field standing
for all remaining machine state. -/
structure MCUState where
  TCCR0A : Fin 256
  TCCR0B : Fin 256
  TIMSK0 : Fin 256
  TIFR0 : Fin 256
  OCR0A : Fin 256
  globalIntEnabled : Bool
  System_millis : Nat
  otherState : Nat
deriving DecidableEq

/-- Names of the registers touched by millis_Init. -/
inductive RegName where
  | TCCR0A
  | TCCR0B
  | TIMSK0
  | TIFR0
  | OCR0A
deriving DecidableEq, BEq

/-- Read one named register from the machine state. -/
def readReg (s : MCUState) (r : RegName) : Fin 256 :=
  match r with
  | RegName.TCCR0A => s.TCCR0A
  | RegName.TCCR0B => s.TCCR0B
  | RegName.TIMSK0 => s.TIMSK0
  | RegName.TIFR0 => s.TIFR0
  | RegName.OCR0A => s.OCR0A

/-- Write one named register in the machine state. -/
def writeReg (s : MCUState) (r : RegName) (v : Fin 256) : MCUState :=
  match r with
  | RegName.TCCR0A => { s with TCCR0A := v }
  | RegName.TCCR0B => { s with TCCR0B := v }
  | RegName.TIMSK0 => { s with TIMSK0 := v }
  | RegName.TIFR0 => { s with TIFR0 := v }
  | RegName.OCR0A => { s with OCR0A := v }

/-- One configuration statement of millis_Init: a single-bit set, a
single-bit clear, an interrupt-flag clear, or a constant assignment. -/
inductive InitStep where
  | bitSetStep (r : RegName) (b : Nat)
  | bitClearStep (r : RegName) (b : Nat)
  | intFlagClearStep (r : RegName) (b : Nat)
  | assignStep (r : RegName) (v : Fin 256)
deriving DecidableEq, BEq

/-- Execute one configuration statement on the machine state. -/
def applyStep (s : MCUState) (st : InitStep) : MCUState :=
  match st with
  | InitStep.bitSetStep r b => writeReg s r (bitSet (readReg s r) b)
  | InitStep.bitClearStep r b => writeReg s r (bitClear (readReg s r) b)
  | InitStep.intFlagClearStep r b => writeReg s r (intFlag_clear (readReg s r) b)
  | InitStep.assignStep r v => writeReg s r v

/-- The statements of millis_Init (millis.c lines 80-104), in source order:
CTC-mode bits, prescaler-select bits, compare-match interrupt enable,
pending-flag clear, and finally the OCR0A compare value. -/
def millis_InitSteps : List InitStep :=
  [ InitStep.bitClearStep RegName.TCCR0A WGM00
  , InitStep.bitSetStep RegName.TCCR0A WGM01
  , InitStep.bitClearStep RegName.TCCR0B WGM02
  , InitStep.bitSetStep RegName.TCCR0B CS00
  , InitStep.bitSetStep RegName.TCCR0B CS01
  , InitStep.bitClearStep RegName.TCCR0B CS02
  , InitStep.bitSetStep RegName.TIMSK0 OCIE0A
  , InitStep.intFlagClearStep RegName.TIFR0 OCF0A
  , InitStep.assignStep RegName.OCR0A 249 ]

/-- millis_Init (millis.c lines 80-104): run the configuration statements
in source order. -/
def millis_Init (s : MCUState) : MCUState :=
  millis_InitSteps.foldl applyStep s

/-- ISR(TIMER0_COMPA_vect) (millis.c lines 55-58): System_millis++, in
uint32_t wrapping arithmetic; no other state is touched. -/
def ISR_TIMER0_COMPA (s : MCUState) : MCUState :=
  { s with System_millis := (s.System_millis + 1) % millisModulus }

/-- The machine state at process start: AVR I/O registers are at their
reset value 0, interrupts are globally disabled, and System_millis
carries its static initializer 0 (millis.c line 38). -/
def initialState : MCUState :=
  { TCCR0A := 0
  , TCCR0B := 0
  , TIMSK0 := 0
  , TIFR0 := 0
  , OCR0A := 0
  , globalIntEnabled := false
  , System_millis := 0
  , otherState := 0 }

/-- The interval-timer record millis_T (millis.h lines 73-78): three
uint32_t fields, modelled as Nat values taken modulo 2^32 by the
operations below. -/
structure millis_T where
  Previous : Nat
  Delta : Nat
  Interval : Nat
deriving DecidableEq

/-- Modelled from the spec: elapsed(timer, now) computes now - Previous by
wrapping unsigned 32-bit subtraction, following the usage pattern shipped
in millis.h (ledTimer.Delta = System_millis - ledTimer.Previous); the
repository defines the millis_T record and this pattern but no named
function for it. -/
def elapsed (t : millis_T) (now : Nat) : Nat :=
  (now % millisModulus + millisModulus - t.Previous % millisModulus) % millisModulus

/-- Modelled from the spec: expired(timer, now) is the pure predicate
elapsed(timer, now) >= timer.Interval, following the comparison
Delta >= Interval of the usage pattern shipped in millis.h. -/
def expired (t : millis_T) (now : Nat) : Bool :=
  decide (t.Interval % millisModulus ≤ elapsed t now)

/-- Modelled from the spec: one call of the expiry check as actually
performed by client code in the millis.h usage pattern: it stores the
wrapping difference into the cached Delta field and returns the
comparison result, leaving Previous and Interval untouched. -/
def expiredRun (t : millis_T) (now : Nat) : millis_T × Bool :=
  ({ t with Delta := elapsed t now }, expired t now)

/-- Modelled from the spec: advance(timer, now) sets timer.Previous = now
(uint32_t assignment), following ledTimer.Previous = currentMillis in the
usage pattern shipped in millis.h. -/
def advance (t : millis_T) (now : Nat) : millis_T :=
  { t with Previous := now % millisModulus }

/-- Unfolded form of millis_Init: the net effect of the nine source
statements on each register. -/
theorem millis_Init_eq (s : MCUState) : millis_Init s =
    { s with
      TCCR0A := bitSet (bitClear s.TCCR0A WGM00) WGM01
      TCCR0B := bitClear (bitSet (bitSet (bitClear s.TCCR0B WGM02) CS00) CS01) CS02
      TIMSK0 := bitSet s.TIMSK0 OCIE0A
      TIFR0 := intFlag_clear s.TIFR0 OCF0A
      OCR0A := 249 } := rfl

/-- After the prescaler-select statements of millis_Init, the TCCR0B bits
CS00 and CS01 are set and CS02 is clear, for every starting register
value. -/
theorem tccr0b_cs_bits : ∀ r : Fin 256,
    (bitClear (bitSet (bitSet (bitClear r WGM02) CS00) CS01) CS02).val.testBit CS00 = true ∧
    (bitClear (bitSet (bitSet (bitClear r WGM02) CS00) CS01) CS02).val.testBit CS01 = true ∧
    (bitClear (bitSet (bitSet (bitClear r WGM02) CS00) CS01) CS02).val.testBit CS02 = false := by
  decide

/-- Repeating the TCCR0A statements of millis_Init is the same as running
them once. -/
theorem tccr0a_steps_idem : ∀ r : Fin 256,
    bitSet (bitClear (bitSet (bitClear r WGM00) WGM01) WGM00) WGM01 =
      bitSet (bitClear r WGM00) WGM01 := by decide

/-- Repeating the TCCR0B statements of millis_Init is the same as running
them once. -/
theorem tccr0b_steps_idem : ∀ r : Fin 256,
    bitClear (bitSet (bitSet (bitClear
        (bitClear (bitSet (bitSet (bitClear r WGM02) CS00) CS01) CS02)
        WGM02) CS00) CS01) CS02 =
      bitClear (bitSet (bitSet (bitClear r WGM02) CS00) CS01) CS02 := by decide

/-- Repeating the TIMSK0 statement of millis_Init is the same as running
it once. -/
theorem timsk0_step_idem : ∀ r : Fin 256,
    bitSet (bitSet r OCIE0A) OCIE0A = bitSet r OCIE0A := by decide

/-- Repeating the TIFR0 statement of millis_Init is the same as running
it once. -/
theorem tifr0_step_idem : ∀ r : Fin 256,
    intFlag_clear (intFlag_clear r OCF0A) OCF0A = intFlag_clear r OCF0A := by decide

/-- Claim C1: millis_Init sets the compare-match threshold according to
the numeric contract T = round(F / D / 1000) - 1 with F = 16000000 and
D = 64 (the quotient 16000000 / 64 / 1000 = 250 is exact, so rounding is
the identity): after millis_Init, OCR0A holds 16000000 / 64 / 1000 - 1,
which is 249, and the prescaler-select bits of TCCR0B encode divisor 64,
that is CS02:CS01:CS00 = 011. -/
theorem millis_Init_compare_threshold_and_prescaler : ∀ s : MCUState,
    (millis_Init s).OCR0A.val = 16000000 / 64 / 1000 - 1 ∧
    (millis_Init s).OCR0A.val = 249 ∧
    (millis_Init s).TCCR0B.val.testBit CS00 = true ∧
    (millis_Init s).TCCR0B.val.testBit CS01 = true ∧
    (millis_Init s).TCCR0B.val.testBit CS02 = false := by
  intro s
  rw [millis_Init_eq]
  exact ⟨rfl, rfl, (tccr0b_cs_bits s.TCCR0B).1, (tccr0b_cs_bits s.TCCR0B).2.1,
    (tccr0b_cs_bits s.TCCR0B).2.2⟩

/-- Claim C2, counterexample: the claim states that millis_Init sets the
comparison threshold (the OCR0A assignment) before it enables the
compare-match interrupt source (the TIMSK0 OCIE0A set).  In the source,
each of these two statements occurs exactly once, the threshold
assignment is statement index 8 and the interrupt enable is statement
index 6, so the threshold write does not precede the interrupt enable:
the claimed order is false of millis_Init. -/
theorem millis_Init_threshold_not_before_interrupt_enable :
    millis_InitSteps.indexOf (InitStep.assignStep RegName.OCR0A 249) = 8 ∧
    millis_InitSteps.indexOf (InitStep.bitSetStep RegName.TIMSK0 OCIE0A) = 6 ∧
    millis_InitSteps.count (InitStep.assignStep RegName.OCR0A 249) = 1 ∧
    millis_InitSteps.count (InitStep.bitSetStep RegName.TIMSK0 OCIE0A) = 1 ∧
    ¬ millis_InitSteps.indexOf (InitStep.assignStep RegName.OCR0A 249) <
        millis_InitSteps.indexOf (InitStep.bitSetStep RegName.TIMSK0 OCIE0A) := by
  decide

/-- Claim C2, amended: millis_Init performs its configuration steps in
this order: it first configures CTC mode and the fixed prescaler
(statements 0 to 5), then enables the compare-match interrupt source,
then clears any stale pending interrupt flag, and sets the comparison
threshold for 1 ms as the final statement before returning. -/
theorem millis_Init_step_order :
    millis_InitSteps.indexOf (InitStep.bitClearStep RegName.TCCR0A WGM00) = 0 ∧
    millis_InitSteps.indexOf (InitStep.bitClearStep RegName.TCCR0B CS02) <
      millis_InitSteps.indexOf (InitStep.bitSetStep RegName.TIMSK0 OCIE0A) ∧
    millis_InitSteps.indexOf (InitStep.bitSetStep RegName.TIMSK0 OCIE0A) <
      millis_InitSteps.indexOf (InitStep.intFlagClearStep RegName.TIFR0 OCF0A) ∧
    millis_InitSteps.indexOf (InitStep.intFlagClearStep RegName.TIFR0 OCF0A) <
      millis_InitSteps.indexOf (InitStep.assignStep RegName.OCR0A 249) ∧
    millis_InitSteps.getLast? = some (InitStep.assignStep RegName.OCR0A 249) := by
  decide

/-- Claim C3: each invocation of the timer interrupt handler increments
System_millis by exactly one (in the wrapping uint32_t arithmetic of the
counter), and the only other operation of the driver, millis_Init, never
writes the counter: the handler is the sole writer.  (The interval-timer
operations act on a millis_T record and cannot touch machine state.) -/
theorem ISR_sole_writer_increments_by_one : ∀ s : MCUState,
    (ISR_TIMER0_COMPA s).System_millis = (s.System_millis + 1) % millisModulus ∧
    (millis_Init s).System_millis = s.System_millis :=
  fun _ => ⟨rfl, rfl⟩

/-- Claim C4: for every timer record and counter value, elapsed computed
by wrapping unsigned subtraction equals now - previous modulo 2^32 (as
integers); in particular previous = 4294967295 with now = 0 gives 1, and
previous = 4294967294 with now = 1 gives 3. -/
theorem elapsed_wrapping_subtraction :
    (∀ (t : millis_T) (now : Nat),
      ((elapsed t now : Nat) : Int) = ((now : Int) - (t.Previous : Int)) % (2 ^ 32)) ∧
    elapsed ⟨4294967295, 0, 0⟩ 0 = 1 ∧
    elapsed ⟨4294967294, 0, 0⟩ 1 = 3 := by
  refine ⟨?_, by decide, by decide⟩
  intro t now
  unfold elapsed millisModulus
  omega

/-- Claim C5: for every interval-timer record with a 32-bit interval and
every counter value, expired is true exactly when the wrapping elapsed
time has reached the interval; one run of the expiry check leaves the
Previous field unchanged and returns exactly the pure predicate, and
running the check again on the resulting record with the same input
gives the identical result, until advance is called. -/
theorem expired_iff_elapsed_ge_interval : ∀ (t : millis_T) (now : Nat),
    t.Interval < millisModulus →
    ((expired t now = true ↔ t.Interval ≤ elapsed t now) ∧
     (expiredRun t now).1.Previous = t.Previous ∧
     (expiredRun t now).2 = expired t now ∧
     expiredRun (expiredRun t now).1 now = expiredRun t now) := by
  intro t now h
  refine ⟨?_, rfl, rfl, rfl⟩
  unfold expired
  rw [decide_eq_true_iff, Nat.mod_eq_of_lt h]

/-- Witness for claim C5, at Previous = 0, Delta = 0, Interval = 1000 and
now = 1500. -/
theorem expired_iff_elapsed_ge_interval_witness :
    ((expired ⟨0, 0, 1000⟩ 1500 = true ↔ 1000 ≤ elapsed ⟨0, 0, 1000⟩ 1500) ∧
     (expiredRun ⟨0, 0, 1000⟩ 1500).1.Previous = 0 ∧
     (expiredRun ⟨0, 0, 1000⟩ 1500).2 = expired ⟨0, 0, 1000⟩ 1500 ∧
     expiredRun (expiredRun ⟨0, 0, 1000⟩ 1500).1 1500 = expiredRun ⟨0, 0, 1000⟩ 1500) :=
  expired_iff_elapsed_ge_interval ⟨0, 0, 1000⟩ 1500 (by decide)

/-- Claim C6: with Interval = 1000 and Previous = 0, expired is false at
now = 999 and true at now = 1000; after advance at 1000 the Previous
field equals 1000 and expired at now = 1000 is false again. -/
theorem interval_1000_scenario :
    expired ⟨0, 0, 1000⟩ 999 = false ∧
    expired ⟨0, 0, 1000⟩ 1000 = true ∧
    (advance ⟨0, 0, 1000⟩ 1000).Previous = 1000 ∧
    expired (advance ⟨0, 0, 1000⟩ 1000) 1000 = false := by decide

/-- Claim C7: with Interval = 0, expired returns true for every counter
value now with now at least Previous (indeed the hypothesis is not even
needed: the wrapping elapsed time is always at least 0). -/
theorem interval_zero_always_expired : ∀ (p d now : Nat),
    p ≤ now → expired ⟨p, d, 0⟩ now = true := by
  intro p d now h
  simp [expired]

/-- Witness for claim C7, at Previous = 5, Delta = 0 and now = 12. -/
theorem interval_zero_always_expired_witness :
    (5 : Nat) ≤ 12 ∧ expired ⟨5, 0, 0⟩ 12 = true :=
  ⟨by decide, interval_zero_always_expired 5 0 12 (by decide)⟩

/-- Claim C8: the System Tick Counter starts at zero in the process
start state (its static initializer in millis.c line 38), and it is an
unsigned quantity kept below 2^32: the counter modulus used by the
interrupt handler is exactly 2^32, so every value the handler produces
fits in an unsigned 32-bit integer. -/
theorem counter_unsigned32_initially_zero :
    initialState.System_millis = 0 ∧
    millisModulus = 2 ^ 32 ∧
    ∀ s : MCUState, (ISR_TIMER0_COMPA s).System_millis < millisModulus :=
  ⟨rfl, rfl, fun _ => Nat.mod_lt _ (by norm_num [millisModulus])⟩

/-- Claim C9: millis_Init writes only the five timer configuration
registers: it leaves the global-interrupt-enable state, the System Tick
Counter, and all remaining machine state unchanged. -/
theorem millis_Init_frame : ∀ s : MCUState,
    (millis_Init s).globalIntEnabled = s.globalIntEnabled ∧
    (millis_Init s).System_millis = s.System_millis ∧
    (millis_Init s).otherState = s.otherState :=
  fun _ => ⟨rfl, rfl, rfl⟩

/-- Claim C10: millis_Init is idempotent on the machine state: from every
starting state, running it twice in succession leaves TCCR0A, TCCR0B,
TIMSK0, TIFR0 and OCR0A (and everything else) exactly as running it
once, since every statement is a single-bit set, a single-bit clear, an
interrupt-flag clear, or a constant assignment. -/
theorem millis_Init_idempotent : ∀ s : MCUState,
    millis_Init (millis_Init s) = millis_Init s := by
  intro s
  rw [millis_Init_eq s, millis_Init_eq]
  simp only [MCUState.mk.injEq, and_true, true_and]
  exact ⟨tccr0a_steps_idem s.TCCR0A, tccr0b_steps_idem s.TCCR0B, timsk0_step_idem s.TIMSK0,
    tifr0_step_idem s.TIFR0⟩
